import Mathlib

/-
Verification of the EDI 837P/835 decoding and claim-matching core of the
mARB pipeline (scripts/edi_utils.py, scripts/parse_835.py,
scripts/parse_837p.py, scripts/claim_matching.py).

Strings of the Python source are shallowly embedded as `List Char`
(ASCII semantics); amounts parsed by Python's `float` are embedded as
rationals (the decoder only stores them, it never computes with them).
-/

set_option maxHeartbeats 1000000

namespace Marb

/-- Characters of a Python string. -/
abbrev PyStr := List Char

/-- Whitespace as recognised by Python's `str.strip()` (ASCII range). -/
def pyIsSpace (c : Char) : Bool :=
  c == ' ' || c == '\t' || c == '\n' || c == '\r' || c == '\x0b' || c == '\x0c'

/-- Python `str.strip()`: remove leading and trailing whitespace. -/
def pyStrip (l : PyStr) : PyStr :=
  ((l.dropWhile pyIsSpace).reverse.dropWhile pyIsSpace).reverse

/-- Python `str.lstrip("0")`: remove leading `'0'` characters. -/
def pyLstrip0 (l : PyStr) : PyStr :=
  l.dropWhile (fun c => c == '0')

/-- Characters kept by `re.sub(r"[^A-Z0-9]", "", token)`. -/
def isUpperAlnum (c : Char) : Bool :=
  ('A' ≤ c && c ≤ 'Z') || ('0' ≤ c && c ≤ '9')

/-- Value of a digit string, most significant first. -/
def digitsToNat (l : PyStr) : Nat :=
  l.foldl (fun a c => a * 10 + (c.toNat - 48)) 0

/-- Decimal rendering of `n` left-padded with `'0'` to width `w`. -/
def padNat (w n : Nat) : PyStr :=
  let ds := Nat.toDigits 10 n
  List.replicate (w - ds.length) '0' ++ ds

/-- Python `int(token)` for plain signed decimal numerals (underscore
separators and non-ASCII digits accepted by CPython are outside the model;
none of the verified claims involves them). -/
def pyInt (s : PyStr) : Option Int :=
  let t := pyStrip s
  let sgn : Int := match t with
    | '-' :: _ => -1
    | _ => 1
  let u : PyStr := match t with
    | '-' :: r => r
    | '+' :: r => r
    | r => r
  if u ≠ [] ∧ u.all Char.isDigit then some (sgn * digitsToNat u) else none

/-- Mantissa of a decimal numeral: `digits`, `digits.`, `digits.digits`
or `.digits`; returns the digit value together with the number of
fraction digits. -/
def parseMantissa (l : PyStr) : Option (Nat × Nat) :=
  let ip := l.takeWhile Char.isDigit
  let rest := l.dropWhile Char.isDigit
  match rest with
  | [] => if ip = [] then none else some (digitsToNat ip, 0)
  | '.' :: fp =>
      if fp.all Char.isDigit ∧ (ip ≠ [] ∨ fp ≠ []) then
        some (digitsToNat ip * 10 ^ fp.length + digitsToNat fp, fp.length)
      else none
  | _ => none

/-- Exponent part of a decimal numeral: optional sign then digits. -/
def parseExp (l : PyStr) : Option Int :=
  let sgn : Int := match l with
    | '-' :: _ => -1
    | _ => 1
  let d : PyStr := match l with
    | '-' :: r => r
    | '+' :: r => r
    | r => r
  if d ≠ [] ∧ d.all Char.isDigit then some (sgn * digitsToNat d) else none

/-- Python `float(s)` for finite decimal numerals with optional sign,
fraction and exponent, as an exact rational (IEEE rounding, `inf`/`nan`
and underscore separators are outside the model; the decoder only stores
the parsed amounts, and no verified claim depends on them). -/
def pyFloat (s : PyStr) : Option ℚ :=
  let t := pyStrip s
  let sgn : Int := match t with
    | '-' :: _ => -1
    | _ => 1
  let u : PyStr := match t with
    | '-' :: r => r
    | '+' :: r => r
    | r => r
  let m := u.takeWhile (fun c => !(c == 'e' || c == 'E'))
  let e := u.drop (m.length + 1)
  let hasExp := decide (m.length < u.length)
  match parseMantissa m, (if hasExp then parseExp e else some 0) with
  | some (n, k), some ex =>
      some (mkRat (sgn * n * 10 ^ (max ex 0).toNat) (10 ^ (k + (max (-ex) 0).toNat)))
  | _, _ => none

/-
Embedding of scripts/edi_utils.py.
-/

/-- Delimiter set detected from an interchange envelope
(edi_utils.detect_delimiters' result dictionary). -/
structure Delims where
  segment : Char
  element : Char
  component : Char
  repetition : Char
deriving DecidableEq, Repr

/-- Default delimiter set of edi_utils.detect_delimiters. -/
def defaultDelims : Delims := ⟨'~', '*', ':', '^'⟩

/-- Python `content.find("ISA")`: index of the first occurrence of the
marker, `none` for `-1`. -/
def findISA : PyStr → Option Nat
  | [] => none
  | c :: cs =>
      if (c :: cs).take 3 = ['I', 'S', 'A'] then some 0
      else (findISA cs).map (· + 1)

/-- Embedding of edi_utils.detect_delimiters: element separator at offset
ISA+3, component separator at ISA+104, segment terminator at ISA+105;
repetition separator fixed to `'^'`. -/
def detect_delimiters (content : PyStr) : Delims :=
  if content = [] then defaultDelims
  else
    match findISA content with
    | none => defaultDelims
    | some p =>
        if content.length < p + 106 then defaultDelims
        else
          let element_sep := content.getD (p + 3) ' '
          let component_sep := content.getD (p + 104) ' '
          let segment_term := content.getD (p + 105) ' '
          if pyIsSpace element_sep || pyIsSpace segment_term then defaultDelims
          else
            ⟨segment_term, element_sep,
             if pyIsSpace component_sep then ':' else component_sep, '^'⟩

/-- Embedding of edi_utils.split_composite. The component separator is a
single character, as produced by detect_delimiters (the source takes a
string, whose emptiness guard is subsumed by the character type). -/
def split_composite (value : PyStr) (component_sep : Char) : List PyStr :=
  if value = [] then []
  else if component_sep ∈ value then value.splitOn component_sep
  else if ':' ∈ value then value.splitOn ':'
  else if '>' ∈ value then value.splitOn '>'
  else [value]

/-
Embedding of scripts/parse_835.py.
-/

/-- Lookup in an association list keyed by Python strings. -/
def tbl (m : List (PyStr × String)) (k : PyStr) : Option String :=
  (m.find? (fun p => p.1 = k)).map (·.2)

/-- CLP_STATUS_MAP of parse_835.py. -/
def CLP_STATUS_MAP : List (PyStr × String) :=
  [("1".data, "Processed as Primary"),
   ("2".data, "Processed as Secondary"),
   ("3".data, "Processed as Tertiary"),
   ("4".data, "Denied"),
   ("19".data, "Processed as Primary, Forwarded to Additional Payer(s)"),
   ("20".data, "Processed as Secondary, Forwarded to Additional Payer(s)"),
   ("21".data, "Processed as Tertiary, Forwarded to Additional Payer(s)"),
   ("22".data, "Reversal of Previous Payment"),
   ("23".data, "Not Our Claim, Forwarded to Additional Payer(s)"),
   ("25".data, "Reject into payment cycle")]

/-- ADJUSTMENT_GROUP_MAP of parse_835.py. -/
def ADJUSTMENT_GROUP_MAP : List (PyStr × String) :=
  [("CO".data, "Contractual Obligation"),
   ("PR".data, "Patient Responsibility"),
   ("OA".data, "Other Adjustment"),
   ("PI".data, "Payer Initiated Reduction"),
   ("CR".data, "Correction/Reversal")]

/-- CARC_MAP of parse_835.py. -/
def CARC_MAP : List (PyStr × String) :=
  [("1".data, "Deductible Amount"),
   ("2".data, "Coinsurance Amount"),
   ("3".data, "Copayment Amount"),
   ("4".data, "Procedure code inconsistent with modifier"),
   ("5".data, "Procedure code inconsistent with place of service"),
   ("6".data, "Procedure/revenue code inconsistent with diagnosis"),
   ("9".data, "Services not authorized"),
   ("16".data, "Claim lacks information needed for adjudication"),
   ("18".data, "Exact duplicate claim/service"),
   ("22".data, "Care may be covered by another payer"),
   ("23".data, "Charges included in allowance for another service"),
   ("24".data, "Charges covered under capitation"),
   ("26".data, "Expenses incurred prior to coverage"),
   ("27".data, "Expenses incurred after coverage"),
   ("29".data, "Time limit for filing has expired"),
   ("31".data, "Patient not eligible for service on date of service"),
   ("35".data, "Lifetime benefit maximum has been reached"),
   ("39".data, "Services denied at the time authorization/pre-certification was requested"),
   ("45".data, "Charges exceed contracted/legislated fee arrangement"),
   ("49".data, "Non-covered because it is a routine/preventive exam"),
   ("50".data, "Non-covered services"),
   ("55".data, "Procedure requires prior authorization"),
   ("96".data, "Non-covered charge(s)"),
   ("97".data, "Benefit not included in current contract/plan"),
   ("109".data, "Not covered by this payer/contractor"),
   ("119".data, "Benefit maximum for this time period/occurrence has been reached"),
   ("167".data, "Diagnosis is not covered"),
   ("197".data, "Precertification/authorization/notification absent"),
   ("204".data, "Service not covered/authorized"),
   ("242".data, "Services not provided by designated provider"),
   ("252".data, "Service not on approved list"),
   ("A1".data, "Claim/service denied (Claim PPS)"),
   ("A6".data, "Prior hospitalization or 30-day transfer requirement not met"),
   ("B7".data, "Provider not certified/eligible to be paid for this procedure"),
   ("B15".data, "Coverage not in effect at the time the service was provided")]

/-- Membership test `code in ADJUSTMENT_GROUP_MAP`. -/
def isGroupCode (k : PyStr) : Bool :=
  (tbl ADJUSTMENT_GROUP_MAP k).isSome

/-- Embedding of safe_get of parse_835.py/parse_837p.py (the default is
passed explicitly at every call site). -/
def safe_get (lst : List PyStr) (idx : Nat) (default : PyStr) : PyStr :=
  if idx < lst.length then lst.getD idx default else default

/-- Days of a month under the Gregorian leap rule used by Python's
datetime. -/
def daysInMonth (y m : Nat) : Nat :=
  if m = 2 then
    if y % 4 = 0 ∧ (y % 100 ≠ 0 ∨ y % 400 = 0) then 29 else 28
  else if m = 4 ∨ m = 6 ∨ m = 9 ∨ m = 11 then 30
  else 31

/-- Embedding of parse_835.parse_date: parse the first eight characters
as CCYYMMDD via strptime and re-render as ISO `YYYY-MM-DD`, `none` on
any failure. -/
def parse_date (s : PyStr) : Option PyStr :=
  if s.length < 8 then none
  else
    let d8 := s.take 8
    if d8.all Char.isDigit then
      let y := digitsToNat (d8.take 4)
      let m := digitsToNat ((d8.drop 4).take 2)
      let d := digitsToNat (d8.drop 6)
      if 1 ≤ y ∧ 1 ≤ m ∧ m ≤ 12 ∧ 1 ≤ d ∧ d ≤ daysInMonth y m then
        some (padNat 4 y ++ '-' :: padNat 2 m ++ '-' :: padNat 2 d)
      else none
    else none

/-- Embedding of parse_835.parse_amount. -/
def parse_amount (amount_str : PyStr) : Option ℚ :=
  if amount_str = [] then none else pyFloat amount_str

/-- One CAS adjustment entry of parse_835.parse_cas_adjustments (the
parse-quality summary, a write-only output that never influences control
flow, is not modelled). -/
structure Adjustment where
  adjustment_group_code : PyStr
  adjustment_group_desc : String
  carc_code : PyStr
  carc_description : String
  adjustment_amount : Option ℚ
  adjustment_quantity : Option Int
deriving DecidableEq, Repr

/-- Loop body of parse_cas_adjustments: walk reason/amount(/quantity)
groups from element index `idx`. The first argument is fuel making the
recursion structural; every iteration advances `idx` by at least two, so
`seg.length` iterations always suffice and the loop is only ever entered
with that much fuel. -/
def casLoop (seg : List PyStr) (group_code : PyStr) (group_desc : String) :
    Nat → Nat → List Adjustment
  | 0, _ => []
  | fuel + 1, idx =>
    if idx < seg.length then
      let carc := safe_get seg idx []
      if carc = [] then []
      else if isGroupCode carc ∧ idx ≠ 2 then []
      else
        let amount := if idx + 1 < seg.length then parse_amount (safe_get seg (idx + 1) []) else none
        let next :=
          if idx + 2 < seg.length then
            let qty_token := safe_get seg (idx + 2) []
            if ¬ isGroupCode qty_token then (pyInt qty_token, idx + 3)
            else ((none : Option Int), idx + 2)
          else ((none : Option Int), idx + 2)
        ⟨group_code, group_desc, carc, (tbl CARC_MAP carc).getD "", amount, next.1⟩ ::
          casLoop seg group_code group_desc fuel next.2
    else []

/-- Embedding of parse_835.parse_cas_adjustments. -/
def parse_cas_adjustments (seg : List PyStr) : List Adjustment :=
  if seg.length < 4 then []
  else
    let group_code := safe_get seg 1 []
    casLoop seg group_code ((tbl ADJUSTMENT_GROUP_MAP group_code).getD "Unknown") seg.length 2

/-- One parsed segment: its ordered list of elements. -/
abbrev Segment := List PyStr

/-- Adjustment entry tagged with the `level` key ('claim' or 'line')
added by extract_payments. -/
structure LeveledAdjustment where
  base : Adjustment
  level : String
deriving DecidableEq, Repr

/-- One service-line payment built from an SVC segment. -/
structure SvcLine where
  procedure_code : PyStr
  modifier_1 : Option PyStr
  charge_amount : Option ℚ
  paid_amount : Option ℚ
  revenue_code : Option PyStr
  units_paid : Option ℚ
  adjustments : List LeveledAdjustment
deriving DecidableEq, Repr

/-- Scalar payment fields of a CLP payment record. Dictionary keys that
may be absent (statement period, patient name) are wrapped in an extra
`Option` layer distinguishing "key absent" from "key present but null". -/
structure PaymentInfo where
  patient_control_number : PyStr
  claim_status_code : PyStr
  claim_status_desc : String
  total_charge_amount : Option ℚ
  paid_amount : Option ℚ
  patient_responsibility : Option ℚ
  claim_filing_indicator_code : PyStr
  payer_claim_control_number : PyStr
  payer_id : PyStr
  payer_name : PyStr
  check_number : PyStr
  payment_date : Option PyStr
  payment_method_code : PyStr
  file_name : PyStr
  statement_start : Option (Option PyStr)
  statement_end : Option (Option PyStr)
  patient_last_name : Option PyStr
  patient_first_name : Option PyStr
deriving DecidableEq, Repr

/-- One payment record of extract_payments' output. -/
structure PaymentRecord where
  payment : PaymentInfo
  service_lines : List SvcLine
  adjustments : List LeveledAdjustment
deriving DecidableEq, Repr

/-- Loop state of extract_payments: the accumulated output, the open
payment, whether a service line is open (the open line is always the
last element of the open payment's line list, mirroring the source's
aliased `current_svc` pointer), and the file-level payer/check fields
(`none` models a dictionary key not yet set). -/
structure ExtState where
  payments : List PaymentRecord
  current_payment : Option PaymentRecord
  has_current_svc : Bool
  payer_name : Option PyStr
  payer_id : Option PyStr
  check_number : Option PyStr
  payment_date_bpr : Option (Option PyStr)
  payment_method_code : Option PyStr
  production_date : Option (Option PyStr)
deriving DecidableEq, Repr

/-- Initial state of extract_payments. -/
def initState : ExtState := ⟨[], none, false, none, none, none, none, none, none⟩

/-- Update the last element of a list (used for appending adjustments to
the open service line, which the source reaches through the aliased
`current_svc` dictionary). -/
def updateLast (f : SvcLine → SvcLine) : List SvcLine → List SvcLine
  | [] => []
  | [x] => [f x]
  | x :: xs => x :: updateLast f xs

/-- Append the line-level adjustments of a CAS segment to a service
line. -/
def appendLineCas (seg : Segment) (svc : SvcLine) : SvcLine :=
  { svc with adjustments := svc.adjustments ++ (parse_cas_adjustments seg).map (⟨·, "line"⟩) }

/-- Payment record opened by a CLP segment. -/
def newPayment (st : ExtState) (seg : Segment) (file_name : PyStr) : PaymentRecord :=
  let status_code := safe_get seg 2 []
  { payment :=
      { patient_control_number := safe_get seg 1 []
        claim_status_code := status_code
        claim_status_desc := (tbl CLP_STATUS_MAP status_code).getD ""
        total_charge_amount := parse_amount (safe_get seg 3 [])
        paid_amount := parse_amount (safe_get seg 4 [])
        patient_responsibility := parse_amount (safe_get seg 5 [])
        claim_filing_indicator_code := safe_get seg 6 []
        payer_claim_control_number := safe_get seg 7 []
        payer_id := st.payer_id.getD []
        payer_name := st.payer_name.getD []
        check_number := st.check_number.getD []
        payment_date := st.payment_date_bpr.getD none
        payment_method_code := st.payment_method_code.getD []
        file_name := file_name
        statement_start := none
        statement_end := none
        patient_last_name := none
        patient_first_name := none }
    service_lines := []
    adjustments := [] }

/-- N1*PR branch of extract_payments: record payer identity. -/
def stepN1PR (st : ExtState) (seg : Segment) : ExtState :=
  { st with
    payer_name := some (safe_get seg 2 [])
    payer_id := if 5 ≤ seg.length then some (safe_get seg 4 []) else st.payer_id }

/-- BPR branch: record payment method and (when present) BPR16 date. -/
def stepBPR (st : ExtState) (seg : Segment) : ExtState :=
  { st with
    payment_method_code := some (safe_get seg 4 [])
    payment_date_bpr :=
      if 16 ≤ seg.length then some (parse_date (safe_get seg 16 [])) else st.payment_date_bpr }

/-- TRN branch: record the check/EFT number. -/
def stepTRN (st : ExtState) (seg : Segment) : ExtState :=
  { st with check_number := some (safe_get seg 2 []) }

/-- Header-level DTM branch: only qualifier 405 is recorded. -/
def stepDtmHeader (st : ExtState) (seg : Segment) : ExtState :=
  if safe_get seg 1 [] = "405".data then
    { st with production_date := some (parse_date (safe_get seg 2 [])) }
  else st

/-- CLP branch: flush the open payment and open a new one. -/
def stepCLP (file_name : PyStr) (st : ExtState) (seg : Segment) : ExtState :=
  { st with
    payments := st.payments ++ st.current_payment.toList
    current_payment := some (newPayment st seg file_name)
    has_current_svc := false }

/-- Claim-level CAS branch: append adjustments tagged 'claim'. -/
def stepCasClaim (st : ExtState) (seg : Segment) : ExtState :=
  { st with
    current_payment := st.current_payment.map (fun p =>
      { p with adjustments :=
          p.adjustments ++ (parse_cas_adjustments seg).map (⟨·, "claim"⟩) }) }

/-- SVC branch: open a service line on the current payment; `none`
models the `proc_parts[0]` IndexError of an empty composite field. -/
def stepSVC (component_sep : Char) (st : ExtState) (seg : Segment) : Option ExtState :=
  let proc_parts := split_composite (safe_get seg 1 []) component_sep
  match proc_parts with
  | [] => none
  | p0 :: _ =>
    let svc : SvcLine :=
      { procedure_code := if 2 ≤ proc_parts.length then proc_parts.getD 1 [] else p0
        modifier_1 := if 3 ≤ proc_parts.length then some (proc_parts.getD 2 []) else none
        charge_amount := parse_amount (safe_get seg 2 [])
        paid_amount := parse_amount (safe_get seg 3 [])
        revenue_code := if 5 ≤ seg.length then some (safe_get seg 4 []) else none
        units_paid := if 6 ≤ seg.length then parse_amount (safe_get seg 5 []) else none
        adjustments := [] }
    some { st with
      current_payment := st.current_payment.map (fun p =>
        { p with service_lines := p.service_lines ++ [svc] })
      has_current_svc := true }

/-- Line-level CAS branch: append adjustments tagged 'line' to the open
(last) service line. -/
def stepCasLine (st : ExtState) (seg : Segment) : ExtState :=
  { st with
    current_payment := st.current_payment.map (fun p =>
      { p with service_lines := updateLast (appendLineCas seg) p.service_lines }) }

/-- Payment-level DTM branch: qualifiers 573/050 set the paid date
(keeping the previous value only when the new date fails to parse),
232/233 set the statement period bounds. -/
def stepDtmPayment (st : ExtState) (seg : Segment) : ExtState :=
  let qual := safe_get seg 1 []
  let date_val := parse_date (safe_get seg 2 [])
  { st with
    current_payment := st.current_payment.map (fun p =>
      if qual = "573".data ∨ qual = "050".data then
        { p with payment :=
            { p.payment with payment_date := date_val.orElse (fun _ => p.payment.payment_date) } }
      else if qual = "232".data then
        { p with payment := { p.payment with statement_start := some date_val } }
      else if qual = "233".data then
        { p with payment := { p.payment with statement_end := some date_val } }
      else p) }

/-- NM1*QC branch: record the patient name on the open payment. -/
def stepNM1QC (st : ExtState) (seg : Segment) : ExtState :=
  { st with
    current_payment := st.current_payment.map (fun p =>
      { p with payment :=
          { p.payment with
            patient_last_name := some (safe_get seg 3 [])
            patient_first_name := some (safe_get seg 4 []) } }) }

/-- One iteration of extract_payments' segment loop, the elif chain of
the source in order. `none` models the source raising an exception:
indexing `seg[0]` of an empty segment, or indexing `proc_parts[0]` when
an SVC segment's composite field is empty. The parse-quality summary
(write-only, no influence on control flow) is not modelled. -/
def step (component_sep : Char) (file_name : PyStr) (st : ExtState) (seg : Segment) :
    Option ExtState :=
  match seg with
  | [] => none
  | sid :: _ =>
    if sid = "ISA".data ∧ 16 ≤ seg.length then some st
    else if sid = "N1".data ∧ safe_get seg 1 [] = "PR".data ∧ 4 ≤ seg.length then
      some (stepN1PR st seg)
    else if sid = "N1".data ∧ safe_get seg 1 [] = "PE".data then some st
    else if sid = "BPR".data ∧ 2 ≤ seg.length then some (stepBPR st seg)
    else if sid = "TRN".data ∧ 3 ≤ seg.length then some (stepTRN st seg)
    else if sid = "DTM".data ∧ st.current_payment = none ∧ 3 ≤ seg.length then
      some (stepDtmHeader st seg)
    else if sid = "CLP".data ∧ 5 ≤ seg.length then some (stepCLP file_name st seg)
    else if sid = "CAS".data ∧ st.current_payment.isSome ∧ st.has_current_svc = false ∧
            4 ≤ seg.length then
      some (stepCasClaim st seg)
    else if sid = "SVC".data ∧ st.current_payment.isSome ∧ 4 ≤ seg.length then
      stepSVC component_sep st seg
    else if sid = "CAS".data ∧ st.has_current_svc = true ∧ 4 ≤ seg.length then
      some (stepCasLine st seg)
    else if sid = "DTM".data ∧ st.current_payment.isSome ∧ 3 ≤ seg.length then
      some (stepDtmPayment st seg)
    else if sid = "NM1".data ∧ safe_get seg 1 [] = "QC".data ∧ st.current_payment.isSome ∧
            4 ≤ seg.length then
      some (stepNM1QC st seg)
    else some st

/-- Embedding of parse_835.extract_payments, restricted to the payment
list (the parse-quality summary is not modelled); `none` models an
exception escaping the loop. -/
def extract_payments (segments : List Segment) (file_name : PyStr) (component_sep : Char) :
    Option (List PaymentRecord) := do
  let st ← segments.foldlM (step component_sep file_name) initState
  return st.payments ++ st.current_payment.toList

/-- Predicate for segments that open a payment record (CLP with at least
five elements). -/
def opensPayment (seg : Segment) : Bool :=
  decide (seg.headD [] = "CLP".data) && decide (5 ≤ seg.length)

/-
Embedding of scripts/parse_837p.py (the diagnosis-extraction aspect of
extract_claim needed by the claims).
-/

/-- DIAGNOSIS_TYPE_MAP of parse_837p.py. -/
def DIAGNOSIS_TYPE_MAP : List (PyStr × String) :=
  [("ABK".data, "principal"), ("ABJ".data, "principal"), ("ABF".data, "other"),
   ("APR".data, "reason_for_visit"), ("ABN".data, "reason_for_visit"),
   ("BBR".data, "admitting"), ("BBQ".data, "other"),
   ("BP".data, "external_cause"), ("BG".data, "drg"), ("DR".data, "drg")]

/-- One diagnosis entry of extract_claim's `diagnoses` list. -/
structure Diagnosis where
  diagnosis_code : PyStr
  diagnosis_type : String
  code_qualifier : PyStr
  sequence_number : Nat
deriving DecidableEq, Repr

/-- Body of the HI branch of extract_claim: decode each element from
index 1 into a diagnosis entry when its composite has at least a
qualifier and a code; the running list length numbers the entries. -/
def diagsFromHI (component_sep : Char) (acc : List Diagnosis) (seg : Segment) :
    List Diagnosis :=
  seg.tail.foldl
    (fun ds el =>
      let parts := split_composite el component_sep
      if 2 ≤ parts.length then
        ds ++ [⟨parts.getD 1 [], (tbl DIAGNOSIS_TYPE_MAP (parts.getD 0 [])).getD "other",
               parts.getD 0 [], ds.length + 1⟩]
      else ds)
    acc

/-- Projection of parse_837p.extract_claim onto its `diagnoses` output:
of the segment branches only `LX` (which flips the header flag) and
`HI` in header context (which appends diagnosis entries) can affect the
list; every other branch of the source leaves both untouched. Segments
are assumed non-empty, as the source indexes `seg[0]` unconditionally. -/
def extract_claim_diagnoses (block : List Segment) (component_sep : Char) :
    List Diagnosis :=
  (block.foldl
    (fun (st : Bool × List Diagnosis) seg =>
      let sid := seg.headD []
      if sid = "HI".data ∧ st.1 = true then (st.1, diagsFromHI component_sep st.2 seg)
      else if sid = "LX".data ∧ 2 ≤ seg.length then (false, st.2)
      else st)
    (true, [])).2

/-
Embedding of scripts/claim_matching.py together with
scripts/pipeline_models.MatchResult. The claim store reached through the
Supabase client is modelled as in-memory tables; an `.eq(column, value)
.limit(1)` query is the first row whose column equals the value.
-/

/-- Row of the claim_headers table (columns used by the matcher; a
nullable column is an `Option`). -/
structure ClaimHeader where
  id : Nat
  claim_id : Option PyStr
  original_claim_id : Option PyStr
deriving DecidableEq, Repr

/-- Row of the claim_references table. -/
structure ClaimReference where
  claim_header_id : Nat
  reference_qualifier : PyStr
  reference_value : PyStr
deriving DecidableEq, Repr

/-- Read-only claim store queried by match_claim_header. -/
structure ClaimStore where
  claim_headers : List ClaimHeader
  claim_references : List ClaimReference
deriving DecidableEq, Repr

/-- MatchResult of pipeline_models.py. -/
structure MatchResult where
  claim_header_id : Option Nat
  strategy : String
  reason_code : String
deriving DecidableEq, Repr

/-- Query `claim_headers.eq("claim_id", v).limit(1)`. -/
def findHeaderByClaimId (store : ClaimStore) (v : PyStr) : Option Nat :=
  (store.claim_headers.find? (fun h => h.claim_id = some v)).map (·.id)

/-- Query `claim_headers.eq("original_claim_id", v).limit(1)`. -/
def findHeaderByOriginalId (store : ClaimStore) (v : PyStr) : Option Nat :=
  (store.claim_headers.find? (fun h => h.original_claim_id = some v)).map (·.id)

/-- Query `claim_references.eq("reference_qualifier", q).eq("reference_value", v).limit(1)`. -/
def findRefByQualValue (store : ClaimStore) (q v : PyStr) : Option Nat :=
  (store.claim_references.find? (fun r => r.reference_qualifier = q ∧ r.reference_value = v)).map
    (·.claim_header_id)

/-- Query `claim_references.eq("reference_value", v).limit(1)`. -/
def findRefByValue (store : ClaimStore) (v : PyStr) : Option Nat :=
  (store.claim_references.find? (fun r => r.reference_value = v)).map (·.claim_header_id)

/-- Embedding of claim_matching.normalize_claim_key (ASCII semantics of
`.strip()`, `.upper()` and the `[^A-Z0-9]` deletion). -/
def normalize_claim_key (value : PyStr) : PyStr :=
  ((pyStrip value).map Char.toUpper).filter isUpperAlnum

/-- Embedding of claim_matching.claim_key_candidates; the input is
`None` or a string. -/
def claim_key_candidates (value : Option PyStr) : List PyStr :=
  match value with
  | none => []
  | some v =>
    let key := pyStrip v
    if key = [] then []
    else
      let c1 := [key]
      let normalized := normalize_claim_key key
      let c2 := if normalized ≠ [] ∧ normalized ∉ c1 then c1 ++ [normalized] else c1
      let no_leading_zeros := pyLstrip0 key
      if no_leading_zeros ≠ [] ∧ no_leading_zeros ≠ key then
        let c3 := c2 ++ [no_leading_zeros]
        let normalized_no_zeros := normalize_claim_key no_leading_zeros
        if normalized_no_zeros ≠ [] ∧ normalized_no_zeros ∉ c3 then c3 ++ [normalized_no_zeros]
        else c3
      else c2

/-- Python truthiness of an optional string argument. -/
def truthy : Option PyStr → Bool
  | none => false
  | some s => s ≠ []

/-- Strategy 1 of match_claim_header: direct claim-identifier match of
the patient-control candidates. -/
def strategy_clp01 (store : ClaimStore) (pcn : Option PyStr) : Option MatchResult :=
  (claim_key_candidates pcn).findSome? (fun c =>
    (findHeaderByClaimId store c).map (fun hid => ⟨some hid, "clp01", "MATCHED_CLAIM_ID"⟩))

/-- Strategy 2: original-claim-identifier match of the claim-control
candidates. -/
def strategy_clp07_original (store : ClaimStore) (ccn : Option PyStr) : Option MatchResult :=
  (claim_key_candidates ccn).findSome? (fun c =>
    (findHeaderByOriginalId store c).map (fun hid =>
      ⟨some hid, "clp07_original_claim_id", "MATCHED_ORIGINAL_CLAIM_ID"⟩))

/-- Strategy 3: reference match on (qualifier, value), candidates outer,
prioritised qualifiers inner. -/
def strategy_clp07_ref (store : ClaimStore) (prio : List PyStr) (ccn : Option PyStr) :
    Option MatchResult :=
  (claim_key_candidates ccn).findSome? (fun c =>
    prio.findSome? (fun q =>
      (findRefByQualValue store q c).map (fun hid =>
        ⟨some hid, "clp07_ref", "MATCHED_REF_" ++ String.mk q⟩)))

/-- Strategy 4: reference match on value alone. -/
def strategy_clp07_ref_any (store : ClaimStore) (ccn : Option PyStr) : Option MatchResult :=
  (claim_key_candidates ccn).findSome? (fun c =>
    (findRefByValue store c).map (fun hid => ⟨some hid, "clp07_ref", "MATCHED_REF_ANY"⟩))

/-- Unmatched result of match_claim_header's trailing if-cascade. -/
def no_match_result (pcn ccn : Option PyStr) : MatchResult :=
  if truthy pcn ∧ claim_key_candidates pcn = [] then ⟨none, "unmatched", "UNUSABLE_CLP01"⟩
  else if truthy ccn ∧ claim_key_candidates ccn = [] then ⟨none, "unmatched", "UNUSABLE_CLP07"⟩
  else if truthy pcn then ⟨none, "unmatched", "NO_MATCH_CLP01_CLP07"⟩
  else if truthy ccn then ⟨none, "unmatched", "NO_MATCH_CLP07"⟩
  else ⟨none, "unmatched", "NO_KEYS"⟩

/-- Embedding of claim_matching.match_claim_header, the loops with early
return written as findSome? over the candidate lists; the reference-
qualifier priority list (loaded from configuration by the source) is a
parameter. -/
def match_claim_header (store : ClaimStore) (prio : List PyStr) (pcn ccn : Option PyStr) :
    MatchResult :=
  match (claim_key_candidates pcn).findSome? (fun c =>
      (findHeaderByClaimId store c).map (fun hid =>
        (⟨some hid, "clp01", "MATCHED_CLAIM_ID"⟩ : MatchResult))) with
  | some r => r
  | none =>
  match (claim_key_candidates ccn).findSome? (fun c =>
      (findHeaderByOriginalId store c).map (fun hid =>
        (⟨some hid, "clp07_original_claim_id", "MATCHED_ORIGINAL_CLAIM_ID"⟩ : MatchResult))) with
  | some r => r
  | none =>
  match (claim_key_candidates ccn).findSome? (fun c =>
      prio.findSome? (fun q =>
        (findRefByQualValue store q c).map (fun hid =>
          (⟨some hid, "clp07_ref", "MATCHED_REF_" ++ String.mk q⟩ : MatchResult)))) with
  | some r => r
  | none =>
  match (claim_key_candidates ccn).findSome? (fun c =>
      (findRefByValue store c).map (fun hid =>
        (⟨some hid, "clp07_ref", "MATCHED_REF_ANY"⟩ : MatchResult))) with
  | some r => r
  | none => no_match_result pcn ccn

/-- Default reference_qualifier_priority of load_matching_config. -/
def default_qualifier_priority : List PyStr :=
  ["1K".data, "D9".data, "F8".data, "9A".data]

/-
Specification-side definitions, written from the spec's words, for the
claims that compare the code with a described candidate list.
-/

/-- Deduplication keeping the first occurrence of each element, with the
set of already-seen elements as accumulator. -/
def dedupFirstAux : List PyStr → List PyStr → List PyStr
  | _, [] => []
  | seen, x :: xs =>
      if x ∈ seen then dedupFirstAux seen xs else x :: dedupFirstAux (x :: seen) xs

/-- Deduplication by first occurrence. -/
def dedupFirst (l : List PyStr) : List PyStr := dedupFirstAux [] l

/-- Candidate list exactly as the spec describes it: raw trimmed value;
normalized form; zero-stripped value (if different from raw); normalized
zero-stripped value (if different) — the whole list deduplicated by
first occurrence. -/
def claim_key_candidates_as_claimed (value : Option PyStr) : List PyStr :=
  match value with
  | none => []
  | some v =>
    let key := pyStrip v
    let n := normalize_claim_key key
    let s := pyLstrip0 key
    let ns := normalize_claim_key s
    dedupFirst ([key, n] ++ (if s ≠ key then [s] else []) ++ (if ns ≠ s then [ns] else []))

/-- Amended candidate-list description: as claimed, but empty candidates
are omitted (and a whitespace-only input, whose trimmed value is empty,
yields the empty list like `None` does). -/
def claim_key_candidates_amended (value : Option PyStr) : List PyStr :=
  match value with
  | none => []
  | some v =>
    let key := pyStrip v
    if key = [] then []
    else
      (dedupFirst [key, normalize_claim_key key, pyLstrip0 key,
        normalize_claim_key (pyLstrip0 key)]).filter (· ≠ [])

/-
Helper lemmas.
-/

/-- Invariants are preserved by folds whose step preserves them. -/
theorem foldl_inv {α β : Type} {P : β → Prop} {g : β → α → β}
    (hg : ∀ b a, P b → P (g b a)) :
    ∀ (l : List α) (b : β), P b → P (l.foldl g b) := by
  intro l
  induction l with
  | nil => intro b hb; exact hb
  | cons a l ih => intro b hb; exact ih _ (hg b a hb)

/-- The marker search fails on the empty document. -/
theorem findISA_ne_nil {c : PyStr} {p : Nat} (h : findISA c = some p) : c ≠ [] := by
  intro hc
  subst hc
  simp [findISA] at h

/-- Dropping a satisfying prefix changes the list only if its head
satisfies the predicate. -/
theorem dropWhile_ne_self {p : Char → Bool} {l : PyStr}
    (h : l.dropWhile p ≠ l) : ∃ a t, l = a :: t ∧ p a = true := by
  cases l with
  | nil => simp at h
  | cons a t =>
      by_cases ha : p a = true
      · exact ⟨a, t, rfl, ha⟩
      · rw [List.dropWhile_cons] at h
        simp [ha] at h

/-- The head of a non-empty dropWhile result falsifies the predicate. -/
theorem dropWhile_head_false {p : Char → Bool} {l : PyStr}
    (h : l.dropWhile p ≠ []) :
    ∃ a t, l.dropWhile p = a :: t ∧ p a = false := by
  induction l with
  | nil => simp at h
  | cons a t ih =>
      rw [List.dropWhile_cons] at h ⊢
      by_cases ha : p a = true
      · simp only [ha, if_true] at h ⊢
        exact ih h
      · simp only [ha, if_false]
        exact ⟨a, t, rfl, by simpa using ha⟩

/-- Appending a non-matching element to the right of dropWhile. -/
theorem dropWhile_append_singleton {p : Char → Bool} {a : Char}
    (xs : PyStr) (ha : p a = false) :
    List.dropWhile p (xs ++ [a]) = List.dropWhile p xs ++ [a] := by
  induction xs with
  | nil => simp [List.dropWhile_cons, ha]
  | cons x xs ih =>
      by_cases hx : p x = true
      · simpa [List.dropWhile_cons, hx] using ih
      · simp [List.dropWhile_cons, hx]

/-- Stripping a string that starts with `'0'` keeps the leading zero. -/
theorem pyStrip_cons_zero (t : PyStr) : ∃ z, pyStrip ('0' :: t) = '0' :: z := by
  unfold pyStrip
  have h0 : pyIsSpace '0' = false := by decide
  rw [List.dropWhile_cons, if_neg (by simp [h0]), List.reverse_cons,
    dropWhile_append_singleton _ h0]
  exact ⟨(List.dropWhile pyIsSpace t.reverse).reverse, by simp⟩

/-- Normalizing a string that starts with `'0'` keeps the leading zero,
so the normalized form is non-empty and still zero-headed. -/
theorem normalize_cons_zero (t : PyStr) :
    ∃ z, normalize_claim_key ('0' :: t) = '0' :: z := by
  obtain ⟨z, hz⟩ := pyStrip_cons_zero t
  unfold normalize_claim_key
  rw [hz]
  simp only [List.map_cons, List.filter_cons]
  have h1 : '0'.toUpper = '0' := by decide
  have h2 : isUpperAlnum '0' = true := by decide
  rw [h1, if_pos h2]
  exact ⟨_, rfl⟩

/-- Closed form of first-occurrence deduplication on a four-element
list. -/
theorem dedupFirst_four (a b c d : PyStr) :
    dedupFirst [a, b, c, d] =
      a :: ((if b = a then [] else [b]) ++
            (if c = a ∨ c = b then [] else [c]) ++
            (if d = a ∨ d = b ∨ d = c then [] else [d])) := by
  simp only [dedupFirst, dedupFirstAux, List.mem_cons, List.not_mem_nil, or_false]
  split_ifs <;> simp_all

/-- The incremental candidate accumulation of claim_key_candidates
coincides with first-occurrence deduplication followed by removal of
empty candidates, given the relations that hold between the raw key and
its derived forms. -/
theorem candidates_merge (key n s ns : PyStr) (hk : key ≠ [])
    (h1 : s = key → ns = n) (h2 : s = [] → ns = [])
    (h3 : s ≠ [] → s ≠ key → n ≠ [] ∧ s ≠ n) :
    (if s ≠ [] ∧ s ≠ key then
       if ns ≠ [] ∧ ns ∉ (if n ≠ [] ∧ n ∉ [key] then [key] ++ [n] else [key]) ++ [s] then
         (if n ≠ [] ∧ n ∉ [key] then [key] ++ [n] else [key]) ++ [s] ++ [ns]
       else (if n ≠ [] ∧ n ∉ [key] then [key] ++ [n] else [key]) ++ [s]
     else if n ≠ [] ∧ n ∉ [key] then [key] ++ [n] else [key]) =
    (dedupFirst [key, n, s, ns]).filter (fun x => decide (x ≠ [])) := by
  rw [dedupFirst_four]
  by_cases hsk : s = key
  · subst hsk
    have hns := h1 rfl
    subst hns
    split_ifs <;> simp_all
  · by_cases hsnil : s = []
    · subst hsnil
      have hns := h2 rfl
      subst hns
      split_ifs <;> simp_all
    · obtain ⟨hnnil, hsn⟩ := h3 hsnil hsk
      split_ifs <;> simp_all

/-- Every adjustment entry emitted by the CAS walk carries the group
code and description fixed from element 1 of the segment. -/
theorem casLoop_group (seg : List PyStr) (gc : PyStr) (gd : String) :
    ∀ (fuel idx : Nat) (a : Adjustment), a ∈ casLoop seg gc gd fuel idx →
      a.adjustment_group_code = gc ∧ a.adjustment_group_desc = gd := by
  intro fuel
  induction fuel with
  | zero => intro idx a h; simp [casLoop] at h
  | succ fuel ih =>
      intro idx a h
      simp only [casLoop] at h
      split at h
      · split at h
        · simp at h
        · split at h
          · simp at h
          · rcases List.mem_cons.mp h with hEq | hMem
            · subst hEq; exact ⟨rfl, rfl⟩
            · exact ih _ a hMem
      · simp at h

/-
Concrete documents used by counterexamples and witnesses.
-/

/-- CAS segment of the spec's adjustment-triplet example. -/
def cas_example_seg : List PyStr :=
  ["CAS".data, "CO".data, "45".data, "50.00".data, "PR".data, "2".data, "25.00".data]

/-- CAS segment of the repository's own unit test
(test_parse_cas_adjustments_tracks_unknown_group_and_carc). -/
def cas_test_seg : List PyStr :=
  ["CAS".data, "ZZ".data, "999".data, "12.34".data, "1".data]

/-- Envelope whose derived component separator (offset 104) is a blank
while element (offset 3) and segment (offset 105) separators are not. -/
def doc_blank_component : PyStr :=
  "ISA|".data ++ List.replicate 100 'X' ++ " !".data

/-- Well-formed envelope declaring element `'|'`, component `':'`,
segment `'~'`. -/
def doc_well_formed : PyStr :=
  "ISA|".data ++ List.replicate 100 'X' ++ ":~".data

/-- Envelope declaring element separator `'^'`, which collides with the
fixed repetition separator. -/
def doc_element_caret : PyStr :=
  "ISA^".data ++ List.replicate 100 'X' ++ ":~".data

/-
Claim theorems.
-/

/-- Claim C1, counterexample: the segment
`["CAS","CO","45","50.00","PR","2","25.00"]` decodes into exactly ONE
adjustment entry, `(CO, 45, 50.00, qty = None)` — not the two entries
the claim states: when the recognized group code `"PR"` is reached in
reason position, the walk stops and the remaining elements are
discarded. -/
theorem parse_cas_adjustments_break_cex :
    parse_cas_adjustments cas_example_seg =
      [⟨"CO".data, "Contractual Obligation", "45".data,
        "Charges exceed contracted/legislated fee arrangement", some 50, none⟩] ∧
    (parse_cas_adjustments cas_example_seg).length = 1 := by
  constructor <;> decide

/-- Claim C1, amended: parse_cas_adjustments walks the elements from
index 2 always consuming a reason and an amount, and treats a third
value as an integer quantity only if it does not itself equal a
recognized group code; but a recognized group code in reason position
terminates the walk rather than opening a new group — every entry of a
segment carries the single group code of element 1, the example segment
decodes to exactly one entry `(CO,45,50.00,qty=None)`, and a
non-group-code third value is consumed as quantity (the repository's own
unit-test segment decodes to `(ZZ,999,12.34,qty=1)`). -/
theorem parse_cas_adjustments_single_group :
    (∀ (seg : List PyStr) (a : Adjustment), a ∈ parse_cas_adjustments seg →
      a.adjustment_group_code = safe_get seg 1 [] ∧
      a.adjustment_group_desc = (tbl ADJUSTMENT_GROUP_MAP (safe_get seg 1 [])).getD "Unknown") ∧
    parse_cas_adjustments cas_example_seg =
      [⟨"CO".data, "Contractual Obligation", "45".data,
        "Charges exceed contracted/legislated fee arrangement", some 50, none⟩] ∧
    parse_cas_adjustments cas_test_seg =
      [⟨"ZZ".data, "Unknown", "999".data, "", some (mkRat 1234 100), some 1⟩] := by
  refine ⟨?_, by decide, by decide⟩
  intro seg a h
  unfold parse_cas_adjustments at h
  split at h
  · simp at h
  · exact casLoop_group seg _ _ _ _ a h

/-- Claim C1, witness: the walk's single entry of the example segment
indeed carries the segment's group code `CO` and its description. -/
theorem parse_cas_adjustments_single_group_witness :
    (⟨"CO".data, "Contractual Obligation", "45".data,
      "Charges exceed contracted/legislated fee arrangement", some 50, none⟩ :
        Adjustment).adjustment_group_code = safe_get cas_example_seg 1 [] ∧
    (⟨"CO".data, "Contractual Obligation", "45".data,
      "Charges exceed contracted/legislated fee arrangement", some 50, none⟩ :
        Adjustment).adjustment_group_desc =
      (tbl ADJUSTMENT_GROUP_MAP (safe_get cas_example_seg 1 [])).getD "Unknown" :=
  parse_cas_adjustments_single_group.1 cas_example_seg _ (by decide)

/-- Claim C3, counterexample: for input `"000"` the candidate list the
claim describes (raw value, then the zero-stripped value `""` which
differs from raw, deduplicated by first occurrence) is `["000", ""]`,
but claim_key_candidates returns `["000"]` — empty candidates are never
included. -/
theorem claim_key_candidates_as_claimed_cex :
    claim_key_candidates (some "000".data) = ["000".data] ∧
    claim_key_candidates_as_claimed (some "000".data) = ["000".data, []] ∧
    claim_key_candidates (some "000".data) ≠
      claim_key_candidates_as_claimed (some "000".data) := by
  refine ⟨by decide, by decide, by decide⟩

/-- Claim C3, amended: claim_key_candidates returns exactly, in order,
the raw trimmed value, its normalized form, the zero-stripped value and
the normalized zero-stripped value, deduplicated by first occurrence,
with EMPTY candidates omitted (so a whitespace-only input, like `None`,
yields the empty list); for `"00-ab 123"` this is the raw value,
`"00AB123"`, the zero-stripped `"-ab 123"` and `"AB123"`. -/
theorem claim_key_candidates_characterization :
    (∀ value, claim_key_candidates value = claim_key_candidates_amended value) ∧
    claim_key_candidates none = [] ∧
    claim_key_candidates (some "00-ab 123".data) =
      ["00-ab 123".data, "00AB123".data, "-ab 123".data, "AB123".data] := by
  refine ⟨?_, rfl, by decide⟩
  intro value
  cases value with
  | none => rfl
  | some v =>
    simp only [claim_key_candidates, claim_key_candidates_amended]
    by_cases hk : pyStrip v = []
    · simp [hk]
    · simp only [hk, if_neg, if_false]
      refine candidates_merge (pyStrip v) _ _ _ hk ?h1 ?h2 ?h3
      case h1 => intro hsk; rw [hsk]
      case h2 => intro hsnil; rw [hsnil]; rfl
      case h3 =>
        intro hsnil hsk
        obtain ⟨a, t, hkeq, ha⟩ := dropWhile_ne_self (p := fun c => c == '0') hsk
        have ha' : a = '0' := by simpa using ha
        obtain ⟨z, hn0⟩ := normalize_cons_zero t
        have hnval : normalize_claim_key (pyStrip v) = '0' :: z := by
          rw [hkeq, ha', hn0]
        obtain ⟨b, u, hsbu, hb⟩ := dropWhile_head_false (p := fun c => c == '0') hsnil
        have hb' : b ≠ '0' := by simpa using hb
        constructor
        · rw [hnval]; simp
        · rw [show pyLstrip0 (pyStrip v) = List.dropWhile (fun c => c == '0') (pyStrip v) from rfl,
            hsbu, hnval]
          intro hcontra
          exact hb' (List.cons.injEq .. ▸ hcontra).1

/-- Claim C4, counterexample: in a complete envelope whose derived
component separator (offset 104) is a blank but whose element and
segment separators are not, detect_delimiters does NOT return the full
default set — it keeps the detected element `'|'` and segment `'!'` and
only defaults the component to `':'`. -/
theorem detect_delimiters_blank_component_cex :
    findISA doc_blank_component = some 0 ∧
    106 ≤ doc_blank_component.length ∧
    pyIsSpace (doc_blank_component.getD 104 'x') = true ∧
    detect_delimiters doc_blank_component = ⟨'!', '|', ':', '^'⟩ ∧
    detect_delimiters doc_blank_component ≠ defaultDelims := by
  refine ⟨by decide, by decide, by decide, by decide, by decide⟩

/-- Claim C4, amended: detect_delimiters returns the full default set
when the marker is absent, the document is too short, or the derived
ELEMENT or SEGMENT separator is blank; a blank component separator alone
is individually replaced by the default `':'` while the detected element
and segment characters are kept; and for a complete envelope with
non-blank derived characters it recovers exactly the element (offset
ISA+3), component (ISA+104) and segment (ISA+105) characters, with the
repetition separator fixed to `'^'`. -/
theorem detect_delimiters_spec :
    (∀ c, findISA c = none → detect_delimiters c = defaultDelims) ∧
    (∀ c p, findISA c = some p → c.length < p + 106 → detect_delimiters c = defaultDelims) ∧
    (∀ c p, findISA c = some p → ¬ c.length < p + 106 →
      (pyIsSpace (c.getD (p + 3) ' ') = true ∨ pyIsSpace (c.getD (p + 105) ' ') = true) →
      detect_delimiters c = defaultDelims) ∧
    (∀ c p, findISA c = some p → ¬ c.length < p + 106 →
      pyIsSpace (c.getD (p + 3) ' ') = false → pyIsSpace (c.getD (p + 105) ' ') = false →
      detect_delimiters c =
        ⟨c.getD (p + 105) ' ', c.getD (p + 3) ' ',
         if pyIsSpace (c.getD (p + 104) ' ') then ':' else c.getD (p + 104) ' ', '^'⟩) := by
  refine ⟨?_, ?_, ?_, ?_⟩
  · intro c h
    unfold detect_delimiters
    by_cases hc : c = []
    · rw [if_pos hc]
    · rw [if_neg hc, h]
  · intro c p h hlen
    unfold detect_delimiters
    rw [if_neg (findISA_ne_nil h), h]
    simp only [hlen, if_true]
  · intro c p h hlen hsp
    unfold detect_delimiters
    rw [if_neg (findISA_ne_nil h), h]
    simp only [hlen, if_false]
    have hor : (pyIsSpace (c.getD (p + 3) ' ') || pyIsSpace (c.getD (p + 105) ' ')) = true := by
      rcases hsp with h1 | h1
      · rw [h1, Bool.true_or]
      · rw [h1, Bool.or_true]
    simp only [hor, if_true]
  · intro c p h hlen he hs
    unfold detect_delimiters
    rw [if_neg (findISA_ne_nil h), h]
    simp only [hlen, if_false, he, hs, Bool.or_self]
    simp

/-- Claim C4, witness: the well-formed envelope declaring `'|'`, `':'`,
`'~'` is detected exactly. -/
theorem detect_delimiters_spec_witness :
    detect_delimiters doc_well_formed = ⟨'~', '|', ':', '^'⟩ :=
  (detect_delimiters_spec.2.2.2 doc_well_formed 0 (by decide) (by decide) (by decide)
    (by decide)).trans (by decide)

/-- Claim C9, counterexample: for the EMPTY element value neither the
declared separator nor any fallback applies, yet split_composite returns
the empty list — not the single-component result `[""]` the claim
asserts for every element value (the function's first guard
`if not value: return []` short-circuits before the separator chain, and
empty values genuinely reach it from empty SVC composite fields). -/
theorem split_composite_empty_cex :
    split_composite [] ':' = [] ∧
    split_composite [] ':' ≠ [([] : PyStr)] := by
  refine ⟨rfl, by decide⟩

/-- Claim C9, amended: for every NON-EMPTY element value, split_composite
splits on the declared separator when the value contains it, otherwise
tries `':'` then `'>'` as fallback separators in that order, and when
none applies returns the value as a single-component result; the empty
value returns the empty list instead of a single-component result; both
`"HC:99213:25"` and `"HC>99213>25"` split with declared separator `':'`
into `["HC","99213","25"]`. -/
theorem split_composite_fallback_order :
    (∀ (v : PyStr) (sep : Char),
        split_composite v sep =
          match [sep, ':', '>'].find? (fun c => decide (c ∈ v)) with
          | some c => v.splitOn c
          | none => if v = [] then [] else [v]) ∧
    split_composite "HC:99213:25".data ':' = ["HC".data, "99213".data, "25".data] ∧
    split_composite "HC>99213>25".data ':' = ["HC".data, "99213".data, "25".data] := by
  refine ⟨?_, by decide, by decide⟩
  intro v sep
  simp only [split_composite, List.find?]
  by_cases hv : v = []
  · subst hv
    simp
  · by_cases h1 : sep ∈ v
    · simp [h1, hv]
    · by_cases h2 : ':' ∈ v
      · simp [h1, h2, hv]
      · by_cases h3 : '>' ∈ v
        · simp [h1, h2, h3, hv]
        · simp [h1, h2, h3, hv]

/-- Claim C10, counterexample: an envelope declaring element separator
`'^'` yields a delimiter set whose element separator equals the fixed
repetition separator `'^'` — the four characters are not pairwise
distinct. -/
theorem detect_delimiters_distinct_cex :
    detect_delimiters doc_element_caret = ⟨'~', '^', ':', '^'⟩ ∧
    (detect_delimiters doc_element_caret).element =
      (detect_delimiters doc_element_caret).repetition := by
  refine ⟨by decide, by decide⟩

/-- Segments that open a payment are exactly the CLP segments with at
least five elements. -/
theorem opensPayment_cons (sid : PyStr) (rest : List PyStr) :
    opensPayment (sid :: rest) = true ↔ (sid = "CLP".data ∧ 5 ≤ (sid :: rest).length) := by
  simp [opensPayment]

/-- A non-CLP segment contributes no payment. -/
theorem count_zero_of_ne (sid : PyStr) (rest : List PyStr) (hne : sid ≠ "CLP".data) :
    (if opensPayment (sid :: rest) then (1 : Nat) else 0) = 0 :=
  if_neg (fun hop => hne ((opensPayment_cons _ _).mp hop).1)

/-- Each loop iteration changes the number of payments (closed plus
open) exactly by one per payment-opening CLP segment. -/
theorem step_count (cs : Char) (fn : PyStr) (st st' : ExtState) (seg : Segment)
    (h : step cs fn st seg = some st') :
    st'.payments.length + st'.current_payment.toList.length =
      st.payments.length + st.current_payment.toList.length +
        (if opensPayment seg then 1 else 0) := by
  cases seg with
  | nil => exact Option.noConfusion h
  | cons sid rest =>
      unfold step at h
      dsimp only [] at h
      by_cases h1 : sid = "ISA".data ∧ 16 ≤ (sid :: rest).length
      case pos =>
        rw [if_pos h1] at h
        injection h with h
        subst h
        rw [count_zero_of_ne sid rest (fun he => by rw [he] at h1; exact absurd h1.1 (by decide))]
        omega
      rw [if_neg h1] at h
      by_cases h2 : sid = "N1".data ∧ safe_get (sid :: rest) 1 [] = "PR".data ∧
        4 ≤ (sid :: rest).length
      case pos =>
        rw [if_pos h2] at h
        injection h with h
        subst h
        rw [count_zero_of_ne sid rest (fun he => by rw [he] at h2; exact absurd h2.1 (by decide))]
        simp [stepN1PR]
      rw [if_neg h2] at h
      by_cases h3 : sid = "N1".data ∧ safe_get (sid :: rest) 1 [] = "PE".data
      case pos =>
        rw [if_pos h3] at h
        injection h with h
        subst h
        rw [count_zero_of_ne sid rest (fun he => by rw [he] at h3; exact absurd h3.1 (by decide))]
        omega
      rw [if_neg h3] at h
      by_cases h4 : sid = "BPR".data ∧ 2 ≤ (sid :: rest).length
      case pos =>
        rw [if_pos h4] at h
        injection h with h
        subst h
        rw [count_zero_of_ne sid rest (fun he => by rw [he] at h4; exact absurd h4.1 (by decide))]
        simp [stepBPR]
      rw [if_neg h4] at h
      by_cases h5 : sid = "TRN".data ∧ 3 ≤ (sid :: rest).length
      case pos =>
        rw [if_pos h5] at h
        injection h with h
        subst h
        rw [count_zero_of_ne sid rest (fun he => by rw [he] at h5; exact absurd h5.1 (by decide))]
        simp [stepTRN]
      rw [if_neg h5] at h
      by_cases h6 : sid = "DTM".data ∧ st.current_payment = none ∧ 3 ≤ (sid :: rest).length
      case pos =>
        rw [if_pos h6] at h
        injection h with h
        subst h
        rw [count_zero_of_ne sid rest (fun he => by rw [he] at h6; exact absurd h6.1 (by decide))]
        simp only [stepDtmHeader]
        split <;> simp
      rw [if_neg h6] at h
      by_cases h7 : sid = "CLP".data ∧ 5 ≤ (sid :: rest).length
      case pos =>
        rw [if_pos h7] at h
        injection h with h
        subst h
        rw [if_pos ((opensPayment_cons sid rest).mpr h7)]
        simp only [stepCLP]
        cases hcp : st.current_payment <;> simp [hcp]
      rw [if_neg h7] at h
      by_cases h8 : sid = "CAS".data ∧ st.current_payment.isSome = true ∧
        st.has_current_svc = false ∧ 4 ≤ (sid :: rest).length
      case pos =>
        rw [if_pos h8] at h
        injection h with h
        subst h
        rw [count_zero_of_ne sid rest (fun he => by rw [he] at h8; exact absurd h8.1 (by decide))]
        simp only [stepCasClaim]
        cases hcp : st.current_payment <;> simp [hcp]
      rw [if_neg h8] at h
      by_cases h9 : sid = "SVC".data ∧ st.current_payment.isSome = true ∧ 4 ≤ (sid :: rest).length
      case pos =>
        rw [if_pos h9] at h
        rw [count_zero_of_ne sid rest (fun he => by rw [he] at h9; exact absurd h9.1 (by decide))]
        unfold stepSVC at h
        dsimp only [] at h
        split at h
        · exact Option.noConfusion h
        · injection h with h
          subst h
          cases hcp : st.current_payment <;> simp [hcp]
      rw [if_neg h9] at h
      by_cases h10 : sid = "CAS".data ∧ st.has_current_svc = true ∧ 4 ≤ (sid :: rest).length
      case pos =>
        rw [if_pos h10] at h
        injection h with h
        subst h
        rw [count_zero_of_ne sid rest (fun he => by rw [he] at h10; exact absurd h10.1 (by decide))]
        simp only [stepCasLine]
        cases hcp : st.current_payment <;> simp [hcp]
      rw [if_neg h10] at h
      by_cases h11 : sid = "DTM".data ∧ st.current_payment.isSome = true ∧
        3 ≤ (sid :: rest).length
      case pos =>
        rw [if_pos h11] at h
        injection h with h
        subst h
        rw [count_zero_of_ne sid rest (fun he => by rw [he] at h11; exact absurd h11.1 (by decide))]
        simp only [stepDtmPayment]
        cases hcp : st.current_payment <;> simp [hcp]
      rw [if_neg h11] at h
      by_cases h12 : sid = "NM1".data ∧ safe_get (sid :: rest) 1 [] = "QC".data ∧
        st.current_payment.isSome = true ∧ 4 ≤ (sid :: rest).length
      case pos =>
        rw [if_pos h12] at h
        injection h with h
        subst h
        rw [count_zero_of_ne sid rest (fun he => by rw [he] at h12; exact absurd h12.1 (by decide))]
        simp only [stepNM1QC]
        cases hcp : st.current_payment <;> simp [hcp]
      rw [if_neg h12] at h
      injection h with h
      subst h
      rw [if_neg (fun hop => h7 ((opensPayment_cons sid rest).mp hop))]
      omega

/-- The payment count invariant extends over the whole loop. -/
theorem foldlM_count (cs : Char) (fn : PyStr) :
    ∀ (segs : List Segment) (st st' : ExtState),
      List.foldlM (step cs fn) st segs = some st' →
      st'.payments.length + st'.current_payment.toList.length =
        st.payments.length + st.current_payment.toList.length + segs.countP opensPayment := by
  intro segs
  induction segs with
  | nil =>
      intro st st' h
      injection h with h
      subst h
      simp
  | cons seg segs ih =>
      intro st st' h
      rw [List.foldlM_cons] at h
      cases hstep : step cs fn st seg with
      | none => rw [hstep] at h; exact Option.noConfusion h
      | some st1 =>
          rw [hstep] at h
          have h1 := step_count cs fn st st1 seg hstep
          have h2 := ih st1 st' h
          rw [List.countP_cons]
          omega

/-- Every diagnosis produced by the HI branch takes its type from its
own qualifier (with default "other"). -/
theorem diagsFromHI_types (cs : Char) (seg : Segment) (acc : List Diagnosis)
    (hacc : ∀ d ∈ acc,
      d.diagnosis_type = (tbl DIAGNOSIS_TYPE_MAP d.code_qualifier).getD "other") :
    ∀ d ∈ diagsFromHI cs acc seg,
      d.diagnosis_type = (tbl DIAGNOSIS_TYPE_MAP d.code_qualifier).getD "other" := by
  unfold diagsFromHI
  refine foldl_inv (P := fun ds => ∀ d ∈ ds,
    d.diagnosis_type = (tbl DIAGNOSIS_TYPE_MAP d.code_qualifier).getD "other") ?_ seg.tail acc hacc
  intro ds el hds d hd
  dsimp only [] at hd
  split at hd
  · rcases List.mem_append.mp hd with h1 | h1
    · exact hds _ h1
    · rw [List.mem_singleton] at h1
      subst h1
      rfl
  · exact hds _ hd

/-- Claim C5, counterexample: an HI segment in header context whose
FIRST composite carries the admitting-diagnosis qualifier `BBR` yields a
first entry of type "admitting", not "principal" — the first entry is
not special-cased. -/
theorem extract_claim_diagnoses_first_cex :
    extract_claim_diagnoses [["HI".data, "BBR:I10".data]] ':' =
      [⟨"I10".data, "admitting", "BBR".data, 1⟩] ∧
    "admitting" ≠ "principal" := by
  refine ⟨by decide, by decide⟩

/-- Claim C5, amended: each repeated composite of a header-context HI
segment that carries at least a qualifier and a code becomes one
diagnosis entry, and EVERY entry's type — the first included — is
dictated by its own qualifier through the fixed table, defaulting to
"other" when the qualifier is unrecognized. -/
theorem extract_claim_diagnoses_own_qualifier :
    (∀ (block : List Segment) (cs : Char) (d : Diagnosis),
        d ∈ extract_claim_diagnoses block cs →
        d.diagnosis_type = (tbl DIAGNOSIS_TYPE_MAP d.code_qualifier).getD "other") ∧
    extract_claim_diagnoses [["HI".data, "ABK:I10".data, "ZZZ:J45".data]] ':' =
      [⟨"I10".data, "principal", "ABK".data, 1⟩, ⟨"J45".data, "other", "ZZZ".data, 2⟩] := by
  refine ⟨?_, by decide⟩
  intro block cs d hd
  unfold extract_claim_diagnoses at hd
  refine foldl_inv (P := fun (st : Bool × List Diagnosis) =>
      ∀ x ∈ st.2, x.diagnosis_type = (tbl DIAGNOSIS_TYPE_MAP x.code_qualifier).getD "other")
    ?_ block (true, []) ?_ d hd
  · intro b a hb
    dsimp only []
    split
    · exact diagsFromHI_types cs a b.2 hb
    · split
      · exact hb
      · exact hb
  · intro x hx
    exact absurd hx (List.not_mem_nil x)

/-- Claim C5, witness: the principal-qualifier entry produced from an
`ABK` composite indeed carries the type its own qualifier dictates. -/
theorem extract_claim_diagnoses_own_qualifier_witness :
    (⟨"I10".data, "principal", "ABK".data, 1⟩ : Diagnosis).diagnosis_type =
      (tbl DIAGNOSIS_TYPE_MAP
        (⟨"I10".data, "principal", "ABK".data, 1⟩ : Diagnosis).code_qualifier).getD "other" :=
  extract_claim_diagnoses_own_qualifier.1 [["HI".data, "ABK:I10".data]] ':' _ (by decide)

/-- Segments of the paid-date counterexample: one CLP, then a valid
DTM*573 date, then a different valid DTM*050 date. -/
def dtm_demo_segs : List Segment :=
  [["CLP".data, "PCN1".data, "1".data, "100".data, "80".data, "20".data],
   ["DTM".data, "573".data, "20240101".data],
   ["DTM".data, "050".data, "20240202".data]]

/-- Claim C6, counterexample: after a valid DTM*573 paid date
2024-01-01, a later valid DTM*050 date 2024-02-02 REPLACES it — the
extracted payment carries 2024-02-02, not the first valid paid date the
claim describes. -/
theorem extract_payments_paid_date_cex :
    (extract_payments dtm_demo_segs "f".data ':').map
        (List.map (fun p => p.payment.payment_date)) =
      some [some "2024-02-02".data] ∧
    some "2024-02-02".data ≠ some "2024-01-01".data := by
  refine ⟨by decide, by decide⟩

/-- Replacement of the open payment record. -/
def setCurrent (st : ExtState) (p : PaymentRecord) : ExtState :=
  { st with current_payment := some p }

/-- Replacement of the paid-date field (Python
`payment['payment_date'] = d`). -/
def withPaidDate (p : PaymentRecord) (d : Option PyStr) : PaymentRecord :=
  { p with payment := { p.payment with payment_date := d } }

/-- Replacement of the statement-period start field. -/
def withStatementStart (p : PaymentRecord) (d : Option PyStr) : PaymentRecord :=
  { p with payment := { p.payment with statement_start := some d } }

/-- Replacement of the statement-period end field. -/
def withStatementEnd (p : PaymentRecord) (d : Option PyStr) : PaymentRecord :=
  { p with payment := { p.payment with statement_end := some d } }

/-- Claim C6, amended: while a payment record is open, a DTM segment
with a paid-date qualifier (573 or 050) routes into the payment's
paid-date field — a successfully parsed date replaces any earlier value,
and only an unparseable date leaves the earlier value in place — while
qualifiers 232 and 233 set the dedicated statement-period start/end
fields, and any other qualifier leaves the payment unchanged. -/
theorem extract_payments_dtm_routing (cs : Char) (fn : PyStr) (st : ExtState)
    (seg : Segment) (p : PaymentRecord)
    (hopen : st.current_payment = some p)
    (hhead : seg.headD [] = "DTM".data) (hlen : 3 ≤ seg.length) :
    (safe_get seg 1 [] = "573".data ∨ safe_get seg 1 [] = "050".data →
      step cs fn st seg = some (setCurrent st (withPaidDate p
        ((parse_date (safe_get seg 2 [])).orElse (fun _ => p.payment.payment_date))))) ∧
    (safe_get seg 1 [] = "232".data →
      step cs fn st seg =
        some (setCurrent st (withStatementStart p (parse_date (safe_get seg 2 []))))) ∧
    (safe_get seg 1 [] = "233".data →
      step cs fn st seg =
        some (setCurrent st (withStatementEnd p (parse_date (safe_get seg 2 []))))) ∧
    (safe_get seg 1 [] ∉ ["573".data, "050".data, "232".data, "233".data] →
      step cs fn st seg = some st) := by
  cases seg with
  | nil => exact absurd hhead (by decide)
  | cons sid rest =>
      have hsid : sid = "DTM".data := hhead
      subst hsid
      have hstep : step cs fn st ("DTM".data :: rest) =
          some (stepDtmPayment st ("DTM".data :: rest)) := by
        unfold step
        dsimp only []
        rw [if_neg (fun hc => absurd hc.1 (by decide)),
            if_neg (fun hc => absurd hc.1 (by decide)),
            if_neg (fun hc => absurd hc.1 (by decide)),
            if_neg (fun hc => absurd hc.1 (by decide)),
            if_neg (fun hc => absurd hc.1 (by decide)),
            if_neg (fun hc => by rw [hopen] at hc; exact Option.noConfusion hc.2.1),
            if_neg (fun hc => absurd hc.1 (by decide)),
            if_neg (fun hc => absurd hc.1 (by decide)),
            if_neg (fun hc => absurd hc.1 (by decide)),
            if_neg (fun hc => absurd hc.1 (by decide)),
            if_pos ⟨rfl, by rw [hopen]; rfl, hlen⟩]
      rw [hstep]
      unfold stepDtmPayment
      dsimp only []
      rw [hopen]
      simp only [Option.map_some']
      refine ⟨?_, ?_, ?_, ?_⟩
      · intro hq
        rw [if_pos hq]
        rfl
      · intro hq
        rw [if_neg (fun hc => by rw [hq] at hc; rcases hc with hc | hc <;> exact absurd hc (by decide)),
            if_pos hq]
        rfl
      · intro hq
        rw [if_neg (fun hc => by rw [hq] at hc; rcases hc with hc | hc <;> exact absurd hc (by decide)),
            if_neg (fun hc => by rw [hq] at hc; exact absurd hc (by decide)),
            if_pos hq]
        rfl
      · intro hq
        simp only [List.mem_cons, List.not_mem_nil, or_false, not_or] at hq
        obtain ⟨hq1, hq2, hq3, hq4⟩ := hq
        rw [if_neg (fun hc => by rcases hc with hc | hc; exacts [hq1 hc, hq2 hc]),
            if_neg hq3, if_neg hq4, ← hopen]

/-- Payment record used by the C6 witness. -/
def demo_payment : PaymentRecord :=
  newPayment initState ["CLP".data, "PCN1".data, "1".data, "100".data, "80".data, "20".data]
    "f".data

/-- State with an open payment, used by the C6 witness. -/
def demo_state : ExtState := { initState with current_payment := some demo_payment }

/-- Claim C6, witness: a DTM*573 segment with a parseable date routes it
into the open payment's paid-date field. -/
theorem extract_payments_dtm_routing_witness :
    step ':' "f".data demo_state ["DTM".data, "573".data, "20240115".data] =
      some (setCurrent demo_state (withPaidDate demo_payment
        ((parse_date (safe_get ["DTM".data, "573".data, "20240115".data] 2 [])).orElse
          (fun _ => demo_payment.payment.payment_date)))) :=
  (extract_payments_dtm_routing ':' "f".data demo_state
    ["DTM".data, "573".data, "20240115".data] demo_payment rfl rfl (by decide)).1 (Or.inl rfl)

/-- Claim C8, confirmed: when extract_payments returns (no exception
escapes the loop), the output contains exactly one payment record per
payment-opening CLP segment — in particular the final open payment, not
followed by any further CLP segment, is flushed at end of document and
never dropped. -/
theorem extract_payments_counts_all_clp (segments : List Segment) (fn : PyStr) (cs : Char)
    (res : List PaymentRecord) (h : extract_payments segments fn cs = some res) :
    res.length = segments.countP opensPayment := by
  unfold extract_payments at h
  cases hst : List.foldlM (step cs fn) initState segments with
  | none => rw [hst] at h; exact Option.noConfusion h
  | some st =>
      rw [hst] at h
      have h' : some (st.payments ++ st.current_payment.toList) = some res := h
      injection h' with h'
      rw [← h']
      have := foldlM_count cs fn segments initState st hst
      simp only [initState] at this
      simp only [List.length_append]
      simpa using this

/-- Single-CLP document for the C8 witness. -/
def c8_demo_segs : List Segment :=
  [["CLP".data, "PCN1".data, "1".data, "100".data, "80".data, "20".data]]

/-- Claim C8, witness: a document whose only (and final) segment is a
CLP yields exactly that one payment. -/
theorem extract_payments_counts_all_clp_witness :
    (extract_payments c8_demo_segs "f".data ':').map List.length =
      some (c8_demo_segs.countP opensPayment) := by
  obtain ⟨res, hres⟩ : ∃ r, extract_payments c8_demo_segs "f".data ':' = some r := ⟨_, rfl⟩
  rw [hres]
  simp only [Option.map_some']
  exact congrArg some (extract_payments_counts_all_clp c8_demo_segs "f".data ':' res hres)

/-- Claim store for the C2 witness: the patient-control value matches a
claim identifier directly, while the original-claim-id and reference
strategies would also match. -/
def c2_store : ClaimStore :=
  ⟨[⟨10, some "AB123".data, some "AB123".data⟩], [⟨99, "D9".data, "AB123".data⟩]⟩

/-- Claim C2, confirmed: match_claim_header applies its four strategies
in strict order — direct claim-identifier match on patient-control
candidates, original-claim-identifier match on claim-control candidates,
reference match on (qualifier, value) with candidates outer and
prioritised qualifiers inner, then reference match on value alone — the
first hit winning over everything after it; in particular whenever some
patient-control candidate matches a claim identifier the result carries
the direct-identifier strategy, regardless of what later strategies
would return. -/
theorem match_claim_header_strategy_order :
    (∀ (store : ClaimStore) (prio : List PyStr) (pcn ccn : Option PyStr),
      match_claim_header store prio pcn ccn =
        ((strategy_clp01 store pcn).orElse (fun _ =>
          (strategy_clp07_original store ccn).orElse (fun _ =>
            (strategy_clp07_ref store prio ccn).orElse (fun _ =>
              strategy_clp07_ref_any store ccn)))).getD (no_match_result pcn ccn)) ∧
    (∀ (store : ClaimStore) (prio : List PyStr) (pcn ccn : Option PyStr) (c : PyStr) (hid : Nat),
      c ∈ claim_key_candidates pcn → findHeaderByClaimId store c = some hid →
      (match_claim_header store prio pcn ccn).strategy = "clp01" ∧
      (match_claim_header store prio pcn ccn).reason_code = "MATCHED_CLAIM_ID") := by
  have e0 : ∀ (store : ClaimStore) (prio : List PyStr) (pcn ccn : Option PyStr),
      match_claim_header store prio pcn ccn =
        match strategy_clp01 store pcn with
        | some r => r
        | none =>
          match strategy_clp07_original store ccn with
          | some r => r
          | none =>
            match strategy_clp07_ref store prio ccn with
            | some r => r
            | none =>
              match strategy_clp07_ref_any store ccn with
              | some r => r
              | none => no_match_result pcn ccn := fun _ _ _ _ => rfl
  constructor
  · intro store prio pcn ccn
    rw [e0]
    cases strategy_clp01 store pcn with
    | some r => rfl
    | none =>
        cases strategy_clp07_original store ccn with
        | some r => rfl
        | none =>
            cases strategy_clp07_ref store prio ccn with
            | some r => rfl
            | none => cases strategy_clp07_ref_any store ccn with
              | some r => rfl
              | none => rfl
  · intro store prio pcn ccn c hid hc hf
    have hne : strategy_clp01 store pcn ≠ none := by
      unfold strategy_clp01
      intro hnone
      rw [List.findSome?_eq_none_iff] at hnone
      have hcontra := hnone c hc
      rw [hf] at hcontra
      exact Option.noConfusion hcontra
    obtain ⟨r, hr⟩ := Option.ne_none_iff_exists'.mp hne
    have hfields : r.strategy = "clp01" ∧ r.reason_code = "MATCHED_CLAIM_ID" := by
      unfold strategy_clp01 at hr
      obtain ⟨x, hx, hfx⟩ := List.exists_of_findSome?_eq_some hr
      cases hmap : findHeaderByClaimId store x with
      | none => rw [hmap] at hfx; exact Option.noConfusion hfx
      | some hid2 =>
          rw [hmap] at hfx
          simp only [Option.map_some'] at hfx
          injection hfx with hfx
          rw [← hfx]
          exact ⟨rfl, rfl⟩
    rw [e0, hr]
    exact hfields

/-- Claim C2, witness: with patient-control `"AB123"` matching a claim
identifier while the claim-control value would also match the
original-claim-id and reference strategies, the result strategy is the
direct-identifier one. -/
theorem match_claim_header_strategy_order_witness :
    (match_claim_header c2_store default_qualifier_priority (some "AB123".data)
      (some "AB123".data)).strategy = "clp01" ∧
    (match_claim_header c2_store default_qualifier_priority (some "AB123".data)
      (some "AB123".data)).reason_code = "MATCHED_CLAIM_ID" :=
  match_claim_header_strategy_order.2 c2_store default_qualifier_priority
    (some "AB123".data) (some "AB123".data) "AB123".data 10 (by decide) (by decide)

/-- Claim C7, confirmed: when no strategy hits, match_claim_header
returns (never raises, being a total function) an absent claim
identifier, strategy "unmatched", and one reason code from the fixed set
{UNUSABLE_CLP01, UNUSABLE_CLP07, NO_MATCH_CLP01_CLP07, NO_MATCH_CLP07,
NO_KEYS}; the code distinguishes "no usable patient-control key",
"no usable claim-control key", "both keys present but unmatched" and
"neither key present" with four different codes, never a single generic
not-found code. -/
theorem match_claim_header_unmatched_reasons (store : ClaimStore) (prio : List PyStr)
    (pcn ccn : Option PyStr)
    (h1 : strategy_clp01 store pcn = none)
    (h2 : strategy_clp07_original store ccn = none)
    (h3 : strategy_clp07_ref store prio ccn = none)
    (h4 : strategy_clp07_ref_any store ccn = none) :
    (match_claim_header store prio pcn ccn).claim_header_id = none ∧
    (match_claim_header store prio pcn ccn).strategy = "unmatched" ∧
    (match_claim_header store prio pcn ccn).reason_code ∈
      ["UNUSABLE_CLP01", "UNUSABLE_CLP07", "NO_MATCH_CLP01_CLP07", "NO_MATCH_CLP07",
       "NO_KEYS"] ∧
    (truthy pcn = true → claim_key_candidates pcn = [] →
      (match_claim_header store prio pcn ccn).reason_code = "UNUSABLE_CLP01") ∧
    (truthy ccn = true → claim_key_candidates ccn = [] →
      ¬(truthy pcn = true ∧ claim_key_candidates pcn = []) →
      (match_claim_header store prio pcn ccn).reason_code = "UNUSABLE_CLP07") ∧
    (truthy pcn = true → truthy ccn = true →
      claim_key_candidates pcn ≠ [] → claim_key_candidates ccn ≠ [] →
      (match_claim_header store prio pcn ccn).reason_code = "NO_MATCH_CLP01_CLP07") ∧
    (truthy pcn = false → truthy ccn = true → claim_key_candidates ccn ≠ [] →
      (match_claim_header store prio pcn ccn).reason_code = "NO_MATCH_CLP07") ∧
    (truthy pcn = false → truthy ccn = false →
      (match_claim_header store prio pcn ccn).reason_code = "NO_KEYS") := by
  have e1 : match_claim_header store prio pcn ccn = no_match_result pcn ccn := by
    have e0 : match_claim_header store prio pcn ccn =
        match strategy_clp01 store pcn with
        | some r => r
        | none =>
          match strategy_clp07_original store ccn with
          | some r => r
          | none =>
            match strategy_clp07_ref store prio ccn with
            | some r => r
            | none =>
              match strategy_clp07_ref_any store ccn with
              | some r => r
              | none => no_match_result pcn ccn := rfl
    rw [e0, h1, h2, h3, h4]
  rw [e1]
  unfold no_match_result
  split_ifs with g1 g2 g3 g4 <;>
    refine ⟨rfl, rfl, by simp, ?_, ?_, ?_, ?_, ?_⟩ <;> intros <;> simp_all

/-- Claim C7, witness: with both keys present and usable but nothing in
the store, the result is absent, unmatched, with the code naming the
both-present-unmatched case. -/
theorem match_claim_header_unmatched_reasons_witness :
    (match_claim_header ⟨[], []⟩ [] (some "A".data) (some "B".data)).claim_header_id = none ∧
    (match_claim_header ⟨[], []⟩ [] (some "A".data) (some "B".data)).strategy = "unmatched" ∧
    (match_claim_header ⟨[], []⟩ [] (some "A".data) (some "B".data)).reason_code =
      "NO_MATCH_CLP01_CLP07" := by
  have h := match_claim_header_unmatched_reasons ⟨[], []⟩ [] (some "A".data) (some "B".data)
    (by decide) (by decide) (by decide) (by decide)
  exact ⟨h.1, h.2.1, h.2.2.2.2.2.1 (by decide) (by decide) (by decide) (by decide)⟩

/-- Claim C10, amended: every delimiter set returned by
detect_delimiters has four non-blank characters (a blank detection
result is replaced by the default set or default component), but the
four characters are NOT guaranteed to be pairwise distinct. -/
theorem detect_delimiters_nonblank :
    ∀ c, pyIsSpace (detect_delimiters c).segment = false ∧
      pyIsSpace (detect_delimiters c).element = false ∧
      pyIsSpace (detect_delimiters c).component = false ∧
      pyIsSpace (detect_delimiters c).repetition = false := by
  intro c
  unfold detect_delimiters
  by_cases hc : c = []
  · rw [if_pos hc]
    decide
  · rw [if_neg hc]
    cases hfind : findISA c with
    | none =>
        exact (by decide :
          pyIsSpace defaultDelims.segment = false ∧ pyIsSpace defaultDelims.element = false ∧
          pyIsSpace defaultDelims.component = false ∧ pyIsSpace defaultDelims.repetition = false)
    | some p =>
        by_cases hlen : c.length < p + 106
        · simp only [hlen, if_true]
          decide
        · simp only [hlen, if_false]
          by_cases hsp : (pyIsSpace (c.getD (p + 3) ' ') ||
              pyIsSpace (c.getD (p + 105) ' ')) = true
          · rw [if_pos hsp]
            decide
          · rw [if_neg hsp]
            have he : pyIsSpace (c.getD (p + 3) ' ') = false := by
              rcases Bool.or_eq_false_iff.mp (Bool.eq_false_iff.mpr hsp) with ⟨h1, h2⟩
              exact h1
            have hs : pyIsSpace (c.getD (p + 105) ' ') = false := by
              rcases Bool.or_eq_false_iff.mp (Bool.eq_false_iff.mpr hsp) with ⟨h1, h2⟩
              exact h2
            refine ⟨hs, he, ?_, rfl⟩
            by_cases hcomp : pyIsSpace (c.getD (p + 104) ' ') = true
            · simp only [hcomp, if_true]
              decide
            · simp only [hcomp, if_false]
              exact Bool.eq_false_iff.mpr hcomp

end Marb
